import Mathlib

/-!
Verification of the LocaViral prototype (browser wizard that turns a product
photo plus a few text fields into ad copy and three banner images).

The development shallowly embeds the two source modules the claims are about:

* `src/services/geminiService.ts` — the campaign orchestrator
  (`generateFollowUpQuestion`, `getDesignTrends`, `generateCampaign`,
  `generateBanner`).  Every call to the external AI gateway is modelled by an
  explicit outcome value (`TextOutcome` / `BannerOutcome`) supplied as an
  argument: the gateway may raise an error, return missing/empty text, or
  return text / image parts.  Each orchestrator function additionally returns
  the list of gateway `Request`s it issued, so "the gateway was not invoked"
  and "the prompts issued" are directly statable.

* `src/App.tsx` — the wizard state machine (`handleGoToStep2`,
  `handleGoToStep3`, `handleGenerate`) over `WizardState`, and the progress
  simulation effect (`tick`).

JavaScript truthiness on strings (`!s` ⟺ `s = ""`) and on nullable strings
(`!s` ⟺ `s = null ∨ s = ""`) is written out explicitly at each use site, and
the JS `x || fb` idiom on an optional string is `jsOr`.
-/

namespace LocaViral

/-- Outcome of one gateway text-generation call: the promise rejects with an
error message, or it resolves with an optional `response.text`
(`none` models a missing text field, `some ""` an empty one). -/
inductive TextOutcome where
  | err (msg : String) : TextOutcome
  | ok (text : Option String) : TextOutcome
deriving DecidableEq

/-- Outcome of one gateway image-edit call: rejection, or a response whose
candidate parts each optionally carry an inline image payload
(`none` models a text-only part). -/
inductive BannerOutcome where
  | err (msg : String) : BannerOutcome
  | resp (parts : List (Option String)) : BannerOutcome
deriving DecidableEq

/-- A request issued to the AI gateway, as observable from the outside:
plain text generation, text generation with an attached image, search-grounded
text generation, or an image edit. -/
inductive Request where
  | genText (prompt : String) : Request
  | genTextImage (prompt : String) (image : String) : Request
  | genGrounded (prompt : String) : Request
  | editImage (image : String) (prompt : String) : Request
deriving DecidableEq

/-- JS `x || fb` for an optional string `x`: the fallback is used when the
text is missing (`none`) or empty (`""`, which is falsy in JS). -/
def jsOr (t : Option String) (fb : String) : String :=
  match t with
  | none => fb
  | some s => if s = "" then fb else s

/-- JS `String.prototype.toLowerCase` restricted to ASCII and the Latin-1
supplement (the alphabets the trigger-phrase check can meet): uppercase
`A`–`Z` and `À`–`Þ` (except `×`) map to their lowercase forms 32 code points
higher; every other character is unchanged. -/
def jsToLower (c : Char) : Char :=
  let n := c.toNat
  if 65 ≤ n ∧ n ≤ 90 then Char.ofNat (n + 32)
  else if 192 ≤ n ∧ n ≤ 222 ∧ n ≠ 215 then Char.ofNat (n + 32)
  else c

/-- Unicode NFD decomposition (`String.prototype.normalize('NFD')`)
restricted to the lowercase Latin-1 letters produced by `jsToLower`: each
accented letter decomposes into its base letter followed by the combining
mark; all other characters are left as is. -/
def nfdChar (c : Char) : List Char :=
  if c = 'à' then ['a', '̀'] else
  if c = 'á' then ['a', '́'] else
  if c = 'â' then ['a', '̂'] else
  if c = 'ã' then ['a', '̃'] else
  if c = 'ä' then ['a', '̈'] else
  if c = 'å' then ['a', '̊'] else
  if c = 'ç' then ['c', '̧'] else
  if c = 'è' then ['e', '̀'] else
  if c = 'é' then ['e', '́'] else
  if c = 'ê' then ['e', '̂'] else
  if c = 'ë' then ['e', '̈'] else
  if c = 'ì' then ['i', '̀'] else
  if c = 'í' then ['i', '́'] else
  if c = 'î' then ['i', '̂'] else
  if c = 'ï' then ['i', '̈'] else
  if c = 'ñ' then ['n', '̃'] else
  if c = 'ò' then ['o', '̀'] else
  if c = 'ó' then ['o', '́'] else
  if c = 'ô' then ['o', '̂'] else
  if c = 'õ' then ['o', '̃'] else
  if c = 'ö' then ['o', '̈'] else
  if c = 'ù' then ['u', '̀'] else
  if c = 'ú' then ['u', '́'] else
  if c = 'û' then ['u', '̂'] else
  if c = 'ü' then ['u', '̈'] else
  if c = 'ý' then ['y', '́'] else
  if c = 'ÿ' then ['y', '̈'] else
  [c]

/-- A combining diacritical mark, i.e. a code point in `U+0300`–`U+036F`
(the range removed by the source regex `/[̀-ͯ]/g`). -/
def isCombiningMark (c : Char) : Bool :=
  decide (0x300 ≤ c.toNat ∧ c.toNat ≤ 0x36F)

/-- The normalization pipeline from `getDesignTrends`
(`geminiService.ts:48`): lower-case, NFD-decompose, then strip the combining
diacritical marks. -/
def normalizeJs (s : String) : List Char :=
  (((s.data.map jsToLower).map nfdChar).flatten).filter (fun c => !isCombiningMark c)

/-- `hay` starts with `needle` (character-wise). -/
def headMatches : List Char → List Char → Bool
  | _, [] => true
  | [], _ :: _ => false
  | c :: cs, d :: ds => (c == d) && headMatches cs ds

/-- JS `String.prototype.includes`: `needle` occurs contiguously in `hay`. -/
def containsSub : List Char → List Char → Bool
  | [], needle => needle.isEmpty
  | l@(_ :: t), needle => headMatches l needle || containsSub t needle

/-- The prompt of `generateFollowUpQuestion` (`geminiService.ts:15`). -/
def followUpPrompt (description : String) : String :=
  "Você é um especialista em vendas.\nProduto: \"" ++ description ++
  "\".\n\nAnalise a descrição e a imagem. Crie UMA ÚNICA pergunta curta para descobrir um detalhe técnico essencial que falta (ex: sabores, voltagem, marca).\nRetorne APENAS a pergunta."

/-- The search-grounded prompt of `getDesignTrends` (`geminiService.ts:57`). -/
def trendsPrompt (description : String) : String :=
  "Primeiro, identifique o produto principal nesta descrição: \"" ++ description ++
  "\".\nEm seguida, pesquise no Google EXATAMENTE com a query: \"post [PRODUTO] site:designi.com.br\"\n(Exemplo: se for bolo, pesquise \"post bolo de pote site:designi.com.br\")\n\nAnalise os snippets e títulos dos resultados para identificar o estilo visual (cores, fundos, elementos) que está em alta no Designi.\n\nRetorne APENAS um parágrafo curto de \"Direção de Arte\" técnica para um designer recriar esse estilo:\n1. Paleta de cores.\n2. Iluminação/Fundo.\n3. Elementos chave."

/-- `generateFollowUpQuestion` (`geminiService.ts:11`): throws when the API
key is empty; otherwise issues one text+image request and, per the source
`try`/`catch`, maps a gateway error to the fixed error-fallback question and
a missing/empty trimmed text to the fixed empty-result fallback question. -/
def generateFollowUpQuestion (apiKey description imageBase64 : String)
    (outcome : TextOutcome) : Except String String × List Request :=
  if apiKey = "" then (.error "API Key missing", [])
  else
    let req := Request.genTextImage (followUpPrompt description) imageBase64
    match outcome with
    | .err _ => (.ok "Poderia dar mais detalhes técnicos sobre o produto?", [req])
    | .ok t => (.ok (jsOr (t.map String.trim) "Quais são as variações ou modelos disponíveis?"), [req])

/-- `getDesignTrends` (`geminiService.ts:46`): if the normalized description
contains a template trigger phrase, return the template sentinel without
touching the gateway; otherwise issue one grounded request, falling back to a
fixed art-direction string on error or on missing/empty text. -/
def getDesignTrends (description : String) (outcome : TextOutcome) :
    String × List Request :=
  let normalizedDesc := normalizeJs description
  if containsSub normalizedDesc ("bolo de pote".data) ||
      containsSub normalizedDesc ("bolo no pote".data) then
    ("TEMPLATE_BOLO_POTE_V1", [])
  else
    let req := Request.genGrounded (trendsPrompt description)
    match outcome with
    | .err _ => ("Estilo comercial high-end, iluminação de estúdio profissional, fundo neutro.", [req])
    | .ok t => (jsOr (t.map String.trim) "Estilo moderno, clean, fundo sólido e iluminação de estúdio.", [req])

/-- Claim C4: a description whose normalization (lower-cased, diacritics
stripped) contains the trigger phrase "bolo de pote" makes the design-trend
lookup return the sentinel `TEMPLATE_BOLO_POTE_V1` with an empty request
list, i.e. without invoking the gateway search capability, for every gateway
outcome. -/
theorem trend_template_short_circuit (d : String) (o : TextOutcome)
    (h : containsSub (normalizeJs d) ("bolo de pote".data) = true) :
    getDesignTrends d o = ("TEMPLATE_BOLO_POTE_V1", []) := by
  unfold getDesignTrends
  simp [h]

/-- Witness for C4 at the accent/case variation "BÔLO DE POTE": its
normalization contains the trigger, and the lookup short-circuits. -/
theorem trend_template_short_circuit_witness :
    containsSub (normalizeJs "Promoção BÔLO DE POTE de morango") ("bolo de pote".data) = true ∧
    getDesignTrends "Promoção BÔLO DE POTE de morango" (.ok (some "x")) = ("TEMPLATE_BOLO_POTE_V1", []) :=
  ⟨by decide, trend_template_short_circuit _ _ (by decide)⟩

/-- The input record of `generateCampaign` (`geminiService.ts:87`).  The
wizard passes its (nullable) stored `dynamicQuestion` through, hence
`Option String`. -/
structure CampaignInput where
  description : String
  dynamicQuestion : Option String
  dynamicAnswer : String
  price : String
  contactPhone : String
  delivery : Bool
  location : String
  productImage : String
deriving DecidableEq

/-- `AdGenerationResult` (`types.ts`): the four always-populated outputs of a
successful campaign generation. -/
structure AdGenerationResult where
  copy : String
  bannerSquare : String
  bannerStory : String
  bannerDesign : String
deriving DecidableEq

/-- The outcomes of the five gateway sub-calls one `generateCampaign`
invocation can make: trend lookup, copy generation, and the three image
edits. -/
structure GatewayEnv where
  trendOutcome : TextOutcome
  copyOutcome : TextOutcome
  squareOutcome : BannerOutcome
  storyOutcome : BannerOutcome
  designOutcome : BannerOutcome
deriving DecidableEq

/-- The value of a resolved `Except`, `none` when it rejected. -/
def okValue {α : Type} : Except String α → Option α
  | .ok a => some a
  | .error _ => none

/-- The copy prompt of `generateCampaign` (`geminiService.ts:105`): embeds
description, answer, price, location, delivery flag and phone — and nothing
else from the input. -/
def copyPrompt (data : CampaignInput) : String :=
  "Crie UM ÚNICO texto de anúncio curto e direto para Facebook/OLX.\nFoco: Venda rápida, urgência e clareza. Nada de enrolação.\n\nProduto: " ++
  data.description ++ "\nDetalhes: " ++ data.dynamicAnswer ++ "\nPreço: " ++
  data.price ++ "\nLocal: " ++ data.location ++ "\nEntrega: " ++
  (if data.delivery then "Sim" else "Não") ++ "\nZap: " ++ data.contactPhone ++
  "\n\nFormato Obrigatório:\n[Headline Curta e Impactante]\n\n[3 Bullet points com os principais benefícios/detalhes]\n\n💰 Apenas " ++
  data.price ++ "\n📍 " ++ data.location ++ " | 🚚 " ++
  (if data.delivery then "Entregamos" else "Retirada") ++
  "\n📲 Chame agora: " ++ data.contactPhone ++ "\n\nSem hashtags. Sem introdução."

/-- The three banner variants of `generateBanner` (`geminiService.ts:170`). -/
inductive BannerType where
  | cleanSquare : BannerType
  | cleanStory : BannerType
  | designSquare : BannerType
deriving DecidableEq

/-- JS template interpolation of a possibly-undefined string: `undefined`
prints as the literal text "undefined". -/
def embedOpt (o : Option String) : String := o.getD "undefined"

/-- The prompt built by `generateBanner` (`geminiService.ts:176`–`246`): the
two clean variants embed only the description; the design variant selects the
hard-coded Bolo de Pote template when the sentinel was passed, and otherwise
the generic art-directed prompt embedding trend, price and contact. -/
def bannerPrompt (ty : BannerType) (description : String)
    (contactInfo price designTrend : Option String) : String :=
  match ty with
  | .cleanSquare =>
    "Edit this product image to look like a high-end e-commerce photo.\nRatio: 1:1 Square.\nAction: Remove background distractions, improve lighting, make the product pop.\nBackground: Clean, neutral, professional studio setting appropriate for: \"" ++
    description ++ "\".\nNo text overlay."
  | .cleanStory =>
    "Edit this product image for an Instagram Story background.\nRatio: 9:16 Vertical.\nAction: Center the product, extend the background seamlessly top and bottom.\nStyle: Aesthetic, clean, minimalist.\nNo text overlay."
  | .designSquare =>
    if designTrend = some "TEMPLATE_BOLO_POTE_V1" then
      "Act as a Senior Art Director.\nTask: Create a promotional ad for \"Bolo de Pote\" (Cake in a Jar) following a STRICT BRAND TEMPLATE.\n\n[BRAND VISUAL IDENTITY - \"Bolo de Pote V1\"]\n- Background: Deep Burgundy/Wine Red texture (rich, premium, romantic).\n- Elements: 3D Glossy Hearts (Rose Gold/Pink) floating in the background with depth of field.\n- Base: A rustic beige jute/burlap fabric mat where the product sits.\n- Props: Fresh, vibrant red strawberries scattered near the base of the jar.\n- Badge: A gold seal/sticker on the left side.\n\n[PRODUCT INTEGRATION]\n- Input Image: Use the cake jar from the provided image.\n- Action: Place the jar centrally on the jute mat. Enhance its layers to look delicious and creamy. Lighting should be soft and warm.\n\n[TEXT OVERLAY - RENDER THIS TEXT CLEARLY]\n- Top Title: \"Experimente nosso\" (Small, Elegant Serif, White)\n- Main Title: \"Bolo de Pote\" (Large, Elegant Serif, White/Cream)\n- Call to Action: \"PEÇA JÁ! " ++
      embedOpt contactInfo ++ "\" (Bottom, Bold, White)\n- Price Tag (if fits): \"" ++
      embedOpt price ++ "\"\n\nEnsure the final image looks like a high-end confectionery flyer."
    else
      "Act as a Senior Art Director. Create a high-conversion social media ad.\n\n[INPUT PRODUCT]\nKeep the product from the image exactly as is, but enhance sharpness and lighting.\n\n[ART DIRECTION AND TRENDS]\nApply this specific visual style found in top-performing ads for this niche:\n\"" ++
      embedOpt designTrend ++ "\"\n\n[CORE PRINCIPLES]\n- Lighting: Key light (softbox) + Rim light (backlight) for 3D separation. NO flat lighting.\n- Composition: Leave negative space for text. Clean, no clutter.\n- Quality: 8k, Octane Render style, Commercial Photography.\n\n[TEXT OVERLAY]\nIntegrate these details naturally into the composition (do not cover the product):\n- Price: \"" ++
      embedOpt price ++ "\"\n- Contact: \"" ++ embedOpt contactInfo ++
      "\"\n\nMake it look like a paid template from Designi or Canva."

/-- First inline-image payload among the response parts
(`geminiService.ts:264`: the loop returns the first part with `inlineData`). -/
def firstImage : List (Option String) → Option String
  | [] => none
  | some d :: _ => some d
  | none :: rest => firstImage rest

/-- `generateBanner` (`geminiService.ts:167`): issues one image-edit request;
per its `try`/`catch` and part scan, an error or a response without any image
payload yields the original input image unchanged. -/
def generateBanner (imageBase64 description : String) (ty : BannerType)
    (contactInfo price designTrend : Option String) (outcome : BannerOutcome) :
    String × List Request :=
  let prompt := bannerPrompt ty description contactInfo price designTrend
  match outcome with
  | .err _ => (imageBase64, [Request.editImage imageBase64 prompt])
  | .resp parts => ((firstImage parts).getD imageBase64, [Request.editImage imageBase64 prompt])

/-- `generateCampaign` (`geminiService.ts:86`): throws when the API key is
empty; launches the trend lookup and the copy call; a rejected copy call
propagates out of the `Promise.all` (there is no `try`/`catch` in this
function), aborting before the banner calls; otherwise empty/missing copy
text is replaced by the fixed placeholder and the three banner edits run,
each with its own internal fallback.  The second component is the list of
gateway requests actually issued (concurrent launches listed in source
order). -/
def generateCampaign (apiKey : String) (data : CampaignInput) (env : GatewayEnv) :
    Except String AdGenerationResult × List Request :=
  if apiKey = "" then (.error "API Key missing", [])
  else
    let trendOut := getDesignTrends data.description env.trendOutcome
    let copyReq := Request.genText (copyPrompt data)
    match env.copyOutcome with
    | .err e => (.error e, trendOut.2 ++ [copyReq])
    | .ok t =>
      let generatedCopy := jsOr t "Erro ao gerar texto."
      let sq := generateBanner data.productImage data.description .cleanSquare
        none none none env.squareOutcome
      let st := generateBanner data.productImage data.description .cleanStory
        none none none env.storyOutcome
      let dz := generateBanner data.productImage data.description .designSquare
        (some data.contactPhone) (some data.price) (some trendOut.1) env.designOutcome
      (.ok { copy := generatedCopy, bannerSquare := sq.1,
             bannerStory := st.1, bannerDesign := dz.1 },
       trendOut.2 ++ [copyReq] ++ sq.2 ++ st.2 ++ dz.2)

/-- Whether a gateway text call resolved (did not reject). -/
def TextOutcome.resolves : TextOutcome → Bool
  | .err _ => false
  | .ok _ => true

/-- The JS `x || fb` idiom never produces the empty string when the fallback
is itself non-empty. -/
lemma jsOr_ne_empty (t : Option String) (fb : String) (hfb : fb ≠ "") :
    jsOr t fb ≠ "" := by
  cases t with
  | none => simpa [jsOr] using hfb
  | some s =>
    simp only [jsOr]
    split
    · exact hfb
    · assumption

/-- A concrete campaign input with an image present and a description that
does not hit the template trigger. -/
def sampleInput : CampaignInput :=
  { description := "Tênis Nike Air", dynamicQuestion := some "Qual o tamanho?",
    dynamicAnswer := "42", price := "R$ 100,00", contactPhone := "11999999999",
    delivery := true, location := "Centro", productImage := "IMG" }

/-- A gateway environment in which every sub-call rejects. -/
def sampleEnvAllFail : GatewayEnv :=
  { trendOutcome := .err "offline", copyOutcome := .err "offline",
    squareOutcome := .err "offline", storyOutcome := .err "offline",
    designOutcome := .err "offline" }

/-- A gateway environment in which every sub-call succeeds. -/
def sampleEnvAllOk : GatewayEnv :=
  { trendOutcome := .ok (some "minimalist studio, blue palette"),
    copyOutcome := .ok (some "Compre agora!"),
    squareOutcome := .resp [some "SQ"], storyOutcome := .resp [some "ST"],
    designOutcome := .resp [some "DZ"] }

/-- A gateway environment in which only the story-banner edit rejects. -/
def sampleEnvStoryFails : GatewayEnv :=
  { sampleEnvAllOk with storyOutcome := .err "down" }

/-- Claim C1 (counterexample): with an image present and every gateway
sub-call failing, `generateCampaign` does not resolve at all — the rejected
copy call propagates out of the unguarded `Promise.all` — refuting "the
operation as a whole still succeeds". -/
theorem campaign_total_cex :
    (generateCampaign "key" sampleInput sampleEnvAllFail).1 = .error "offline" := rfl

/-- Claim C1 (amended): provided the API key is non-empty and the copy call
itself resolves (its text may still be missing or empty), `generateCampaign`
resolves for every trend and banner outcome, and a missing/empty copy text is
replaced by the fixed placeholder "Erro ao gerar texto.". -/
theorem campaign_total_amended (apiKey : String) (data : CampaignInput)
    (env : GatewayEnv) (t : Option String)
    (hkey : apiKey ≠ "") (hcopy : env.copyOutcome = .ok t) :
    (okValue (generateCampaign apiKey data env).1).isSome = true ∧
    (t = none ∨ t = some "" →
      (okValue (generateCampaign apiKey data env).1).map AdGenerationResult.copy =
        some "Erro ao gerar texto.") := by
  unfold generateCampaign
  rw [if_neg hkey, hcopy]
  refine ⟨rfl, ?_⟩
  rintro (rfl | rfl) <;> rfl

/-- Witness for the amended C1: all trend/banner calls reject and the copy
call resolves with no text, yet the operation resolves with the placeholder
copy. -/
theorem campaign_total_amended_witness :
    (okValue (generateCampaign "key" sampleInput
        { sampleEnvAllFail with copyOutcome := .ok none }).1).isSome = true ∧
    (okValue (generateCampaign "key" sampleInput
        { sampleEnvAllFail with copyOutcome := .ok none }).1).map AdGenerationResult.copy =
      some "Erro ao gerar texto." := by
  have h := campaign_total_amended "key" sampleInput
    { sampleEnvAllFail with copyOutcome := .ok none } none (by decide) rfl
  exact ⟨h.1, h.2 (Or.inl rfl)⟩

/-- Claim C2 (counterexample): with an empty API key the function throws
"API Key missing" instead of resolving to a string, even though the gateway
outcome would have been a successful text — refuting "never propagates an
error to its caller". -/
theorem followup_total_cex :
    (generateFollowUpQuestion "" "Bolo de pote" "IMG" (.ok (some "Qual o sabor?"))).1 =
      .error "API Key missing" := rfl

/-- Claim C2 (amended): provided the API key is non-empty,
`generateFollowUpQuestion` resolves to a non-empty string under every gateway
outcome; a missing text yields the fixed empty-result fallback, an error the
fixed error fallback, and the two fallback strings differ. -/
theorem followup_total_amended (apiKey d img e : String) (o : TextOutcome)
    (hkey : apiKey ≠ "") :
    (okValue (generateFollowUpQuestion apiKey d img o).1).getD "" ≠ "" ∧
    (generateFollowUpQuestion apiKey d img (.ok none)).1 =
      .ok "Quais são as variações ou modelos disponíveis?" ∧
    (generateFollowUpQuestion apiKey d img (.err e)).1 =
      .ok "Poderia dar mais detalhes técnicos sobre o produto?" ∧
    ("Quais são as variações ou modelos disponíveis?" : String) ≠
      "Poderia dar mais detalhes técnicos sobre o produto?" := by
  refine ⟨?_, ?_, ?_, by decide⟩
  · unfold generateFollowUpQuestion
    rw [if_neg hkey]
    cases o with
    | err m =>
      show ("Poderia dar mais detalhes técnicos sobre o produto?" : String) ≠ ""
      decide
    | ok t =>
      show jsOr (t.map String.trim) "Quais são as variações ou modelos disponíveis?" ≠ ""
      exact jsOr_ne_empty _ _ (by decide)
  · unfold generateFollowUpQuestion; rw [if_neg hkey]; rfl
  · unfold generateFollowUpQuestion; rw [if_neg hkey]

/-- Witness for the amended C2: with a non-empty key, a gateway error
resolves to the (non-empty) error-fallback question, distinct from the
empty-result fallback. -/
theorem followup_total_amended_witness :
    (okValue (generateFollowUpQuestion "key" "Bolo de pote" "IMG" (.err "down")).1).getD "" ≠ "" ∧
    (generateFollowUpQuestion "key" "Bolo de pote" "IMG" (.ok none)).1 =
      .ok "Quais são as variações ou modelos disponíveis?" := by
  have h := followup_total_amended "key" "Bolo de pote" "IMG" "down" (.err "down") (by decide)
  exact ⟨h.1, h.2.1⟩

/-- Claim C3 (counterexample): with the product image present and every
gateway sub-call succeeding, `generateCampaign` still rejects when the API
key is empty — a configuration-state failure the claim says cannot exist. -/
theorem campaign_failure_cex :
    (generateCampaign "" sampleInput sampleEnvAllOk).1 = .error "API Key missing" := rfl

/-- Claim C3 (amended): `generateCampaign` resolves exactly when the API key
is non-empty and the copy sub-call resolves; the condition does not mention
the input record at all — in particular a missing/empty product image is
never checked and never causes rejection, and trend or banner sub-call
failures never cause rejection. -/
theorem campaign_failure_characterization (apiKey : String) (data : CampaignInput)
    (env : GatewayEnv) :
    (okValue (generateCampaign apiKey data env).1).isSome =
      (decide (apiKey ≠ "") && env.copyOutcome.resolves) := by
  unfold generateCampaign
  split
  · rename_i h; simp [h, okValue]
  · rename_i h
    match hc : env.copyOutcome with
    | .err e => simp [h, okValue, TextOutcome.resolves]
    | .ok t => simp [h, okValue, TextOutcome.resolves]

/-- Claim C5: each of the three image-edit calls has an independent fallback
(on rejection, or on a response with no image payload, the original input
image is returned for that slot), and in `generateCampaign` each banner slot
is exactly its own `generateBanner` output — so one banner failing never
blocks or degrades the other two, and the operation still resolves. -/
theorem banner_fallback_independence :
    (∀ (img d : String) (ty : BannerType) (ci pr dt : Option String) (e : String),
      (generateBanner img d ty ci pr dt (.err e)).1 = img) ∧
    (∀ (img d : String) (ty : BannerType) (ci pr dt : Option String)
        (parts : List (Option String)),
      firstImage parts = none →
      (generateBanner img d ty ci pr dt (.resp parts)).1 = img) ∧
    (∀ (apiKey : String) (data : CampaignInput) (env : GatewayEnv) (t : Option String),
      apiKey ≠ "" → env.copyOutcome = .ok t →
      okValue (generateCampaign apiKey data env).1 = some
        { copy := jsOr t "Erro ao gerar texto.",
          bannerSquare := (generateBanner data.productImage data.description
            .cleanSquare none none none env.squareOutcome).1,
          bannerStory := (generateBanner data.productImage data.description
            .cleanStory none none none env.storyOutcome).1,
          bannerDesign := (generateBanner data.productImage data.description
            .designSquare (some data.contactPhone) (some data.price)
            (some (getDesignTrends data.description env.trendOutcome).1)
            env.designOutcome).1 }) := by
  refine ⟨fun img d ty ci pr dt e => rfl, ?_, ?_⟩
  · intro img d ty ci pr dt parts hparts
    show (firstImage parts).getD img = img
    rw [hparts]
    rfl
  · intro apiKey data env t hkey hcopy
    unfold generateCampaign
    rw [if_neg hkey, hcopy]
    rfl

/-- Witness for C5: a rejected story edit returns the original image, and in
a run where only the story edit fails the operation resolves with the two
real edited banners and the unchanged original in the story slot. -/
theorem banner_fallback_independence_witness :
    (generateBanner "IMG" "Tênis Nike Air" .cleanStory none none none (.err "down")).1 = "IMG" ∧
    okValue (generateCampaign "key" sampleInput sampleEnvStoryFails).1 = some
      { copy := jsOr (some "Compre agora!") "Erro ao gerar texto.",
        bannerSquare := (generateBanner "IMG" "Tênis Nike Air"
          .cleanSquare none none none (.resp [some "SQ"])).1,
        bannerStory := (generateBanner "IMG" "Tênis Nike Air"
          .cleanStory none none none (.err "down")).1,
        bannerDesign := (generateBanner "IMG" "Tênis Nike Air"
          .designSquare (some "11999999999") (some "R$ 100,00")
          (some (getDesignTrends "Tênis Nike Air"
            (.ok (some "minimalist studio, blue palette"))).1)
          (.resp [some "DZ"])).1 } := by
  refine ⟨banner_fallback_independence.1 "IMG" "Tênis Nike Air" .cleanStory none none none "down", ?_⟩
  exact banner_fallback_independence.2.2 "key" sampleInput sampleEnvStoryFails
    (some "Compre agora!") (by decide) rfl

/-- The wizard step enumeration (`types.ts`, `enum Step`). -/
inductive Step where
  | home : Step
  | description : Step
  | dynamicQuestion : Step
  | technicalDetails : Step
  | processing : Step
  | results : Step
deriving DecidableEq

/-- The `data` field of `WizardState` (`types.ts`). -/
structure WizardData where
  productImage : Option String
  description : String
  dynamicQuestion : Option String
  dynamicAnswer : String
  price : String
  contactPhone : String
  delivery : Bool
  location : String
deriving DecidableEq

/-- The `results` field of `WizardState` (`types.ts`): nullable as a whole,
with individually nullable members. -/
structure ResultsView where
  copy : Option String
  bannerSquare : Option String
  bannerStory : Option String
  bannerDesign : Option String
deriving DecidableEq

/-- `WizardState` (`types.ts`): the single mutable session state of the
wizard. -/
structure WizardState where
  step : Step
  isLoading : Bool
  loadingMessage : String
  progress : ℚ
  data : WizardData
  results : Option ResultsView
deriving DecidableEq

/-- The observable outcome of running one App event handler to completion:
the settled state, the `alert`s shown to the user, and the gateway requests
issued on its behalf. -/
structure HandlerOut where
  state : WizardState
  alerts : List String
  requests : List Request
deriving DecidableEq

/-- The initial wizard state (`App.tsx:42`, the `useState` initializer). -/
def initialState : WizardState :=
  { step := .home, isLoading := false, loadingMessage := "", progress := 0,
    data := { productImage := none, description := "", dynamicQuestion := none,
              dynamicAnswer := "", price := "", contactPhone := "",
              delivery := false, location := "" },
    results := none }

/-- Consume the literal `lit` from the front of `cs`, returning the rest. -/
def chopLit : List Char → List Char → Option (List Char)
  | [], cs => some cs
  | _ :: _, [] => none
  | l :: ls, c :: cs => if c = l then chopLit ls cs else none

/-- Split off the longest run of lowercase ASCII letters. -/
def spanLower : List Char → List Char × List Char
  | [] => ([], [])
  | c :: cs =>
    if 'a' ≤ c ∧ c ≤ 'z' then
      let p := spanLower cs
      (c :: p.1, p.2)
    else ([], c :: cs)

/-- `stripBase64Prefix` (`App.tsx:36`): removes a leading
`data:image/[a-z]+;base64,` data-URL header, matching the source's anchored
regex replace; any string not starting with such a header is unchanged. -/
def stripBase64DataUrl (s : String) : String :=
  match chopLit ("data:image/".data) s.data with
  | none => s
  | some rest =>
    let p := spanLower rest
    if p.1 = [] then s
    else
      match chopLit (";base64,".data) p.2 with
      | none => s
      | some tail => String.mk tail

/-- The record `handleGenerate` (`App.tsx:158`) passes to `generateCampaign`:
the collected wizard data with the image's data-URL header stripped. -/
def toCampaignInput (d : WizardData) (img : String) : CampaignInput :=
  { description := d.description, dynamicQuestion := d.dynamicQuestion,
    dynamicAnswer := d.dynamicAnswer, price := d.price,
    contactPhone := d.contactPhone, delivery := d.delivery,
    location := d.location, productImage := stripBase64DataUrl img }

/-- `handleStart` (`App.tsx:117`): unconditional move to the description
step. -/
def handleStart (s : WizardState) : HandlerOut :=
  ⟨{ s with step := .description }, [], []⟩

/-- `handleGoToStep2` (`App.tsx:121`): refuses (alert, no gateway call, state
untouched) when the description is empty or the image is null (or the JS
falsy empty string); otherwise runs `generateFollowUpQuestion` and advances —
on success with the returned question, on a thrown error with the fixed local
fallback question — clearing the loading flag either way. -/
def handleGoToStep2 (apiKey : String) (qo : TextOutcome) (s : WizardState) :
    HandlerOut :=
  if s.data.description = "" ∨ s.data.productImage = none ∨ s.data.productImage = some "" then
    ⟨s, ["Por favor, adicione uma foto e descrição."], []⟩
  else
    let s1 : WizardState :=
      { s with isLoading := true, loadingMessage := "Analisando seu produto com IA..." }
    let out := generateFollowUpQuestion apiKey s.data.description
      (stripBase64DataUrl (s.data.productImage.getD "")) qo
    match out.1 with
    | .ok q =>
      ⟨{ s1 with
           isLoading := false, step := .dynamicQuestion,
           data := { s.data with dynamicQuestion := some q } }, [], out.2⟩
    | .error _ =>
      ⟨{ s1 with
           isLoading := false, step := .dynamicQuestion,
           data := { s.data with
             dynamicQuestion := some "Quais os principais diferenciais deste produto?" } },
       [], out.2⟩

/-- `handleGoToStep3` (`App.tsx:144`): refuses silently (plain `return`, no
alert, no gateway call) when the answer or the price is empty; otherwise
advances to the technical-details step. -/
def handleGoToStep3 (s : WizardState) : HandlerOut :=
  if s.data.dynamicAnswer = "" ∨ s.data.price = "" then ⟨s, [], []⟩
  else ⟨{ s with step := .technicalDetails }, [], []⟩

/-- `handleGenerate` (`App.tsx:149`): refuses with an alert when phone or
location is empty; otherwise sets the loading flag/message and runs
`generateCampaign` inside `try`/`catch`.  A null stored image makes the
non-null assertion `state.data.productImage!` feed `null` into
`stripBase64Prefix`, whose `.replace` throws a `TypeError` caught by the same
`catch`.  On any caught rejection: error alert, loading cleared, nothing else
touched.  On success: progress forced to 100, then (after the grace timeout)
results stored with re-attached data-URL headers and step set to Results.
`runCampaign` is the `try`/`catch` body once an image is present. -/
def runCampaign (apiKey : String) (env : GatewayEnv) (s : WizardState) (img : String) :
    HandlerOut :=
  match okValue (generateCampaign apiKey (toCampaignInput s.data img) env).1 with
  | none =>
    ⟨{ s with
         loadingMessage := "Criando arte viral e copy persuasiva...",
         isLoading := false },
     ["Ocorreu um erro ao gerar o anúncio. Tente novamente."],
     (generateCampaign apiKey (toCampaignInput s.data img) env).2⟩
  | some r =>
    ⟨{ s with
         loadingMessage := "Criando arte viral e copy persuasiva...",
         isLoading := false, progress := 100, step := .results,
         results := some
           { copy := some r.copy,
             bannerSquare := some ("data:image/jpeg;base64," ++ r.bannerSquare),
             bannerStory := some ("data:image/jpeg;base64," ++ r.bannerStory),
             bannerDesign := some ("data:image/jpeg;base64," ++ r.bannerDesign) } },
     [], (generateCampaign apiKey (toCampaignInput s.data img) env).2⟩

/-- `handleGenerate` (`App.tsx:149`), entry point: validation gate, then the
null-image `TypeError` path or the campaign run. -/
def handleGenerate (apiKey : String) (env : GatewayEnv) (s : WizardState) :
    HandlerOut :=
  if s.data.contactPhone = "" ∨ s.data.location = "" then
    ⟨s, ["Preencha os dados de contato."], []⟩
  else
    match s.data.productImage with
    | none =>
      ⟨{ s with
           isLoading := false,
           loadingMessage := "Criando arte viral e copy persuasiva..." },
       ["Ocorreu um erro ao gerar o anúncio. Tente novamente."], []⟩
    | some img => runCampaign apiKey env s img

/-- One tick of the progress-simulation interval (`App.tsx:74`): frozen at or
above 95, otherwise incremented by 2 below 40, by 1 below 70, and by 0.5
from 70 on. -/
def tick (p : ℚ) : ℚ :=
  if p ≥ 95 then p
  else p + (if p < 40 then 2 else if p < 70 then 1 else 0.5)

/-- The simulated progress value after `n` ticks of a loading cycle, which
starts from the seed value 5 (`App.tsx:72`). -/
def progressAfter (n : ℕ) : ℚ := tick^[n] 5

/-- Claim C10: `generateCampaign` never reads the `dynamicQuestion` field:
replacing it by any other value leaves the entire output — the result and the
full list of issued gateway requests, prompts included — unchanged. -/
theorem campaign_ignores_dynamic_question (apiKey : String) (data : CampaignInput)
    (q : Option String) (env : GatewayEnv) :
    generateCampaign apiKey { data with dynamicQuestion := q } env =
      generateCampaign apiKey data env := by
  cases data
  rfl

/-- A wizard state sitting on the dynamic-question step with the answer still
empty (price already filled in): the forward transition must be refused. -/
def silentState : WizardState :=
  { initialState with
      step := .dynamicQuestion,
      data := { initialState.data with
        description := "Bolo de pote",
        productImage := some "data:image/jpeg;base64,AAAA",
        dynamicQuestion := some "Qual o sabor?",
        price := "R$ 10,00" } }

/-- A wizard state sitting on the technical-details step with every required
field filled in and no results yet. -/
def frameState : WizardState :=
  { initialState with
      step := .technicalDetails,
      progress := 42,
      data := { productImage := some "IMG", description := "Tênis Nike Air",
                dynamicQuestion := some "Qual o tamanho?", dynamicAnswer := "42",
                price := "R$ 100,00", contactPhone := "11999999999",
                delivery := true, location := "Centro" } }

/-- Claim C6: each gated forward transition is refused — the state (and in
particular its step field) is left untouched and no gateway request is
issued — whenever its required fields are empty or null: description/image
for leaving `DescriptionInput`, answer/price for leaving `DynamicQuestion`,
phone/location for leaving `TechnicalDetails`. -/
theorem wizard_gating (apiKey : String) (qo : TextOutcome) (env : GatewayEnv)
    (s : WizardState) :
    (s.data.description = "" ∨ s.data.productImage = none →
      (handleGoToStep2 apiKey qo s).state = s ∧
      (handleGoToStep2 apiKey qo s).requests = []) ∧
    (s.data.dynamicAnswer = "" ∨ s.data.price = "" →
      (handleGoToStep3 s).state = s ∧ (handleGoToStep3 s).requests = []) ∧
    (s.data.contactPhone = "" ∨ s.data.location = "" →
      (handleGenerate apiKey env s).state = s ∧
      (handleGenerate apiKey env s).requests = []) := by
  refine ⟨?_, ?_, ?_⟩
  · intro h
    have hc : s.data.description = "" ∨ s.data.productImage = none ∨
        s.data.productImage = some "" :=
      h.elim Or.inl (fun h2 => Or.inr (Or.inl h2))
    unfold handleGoToStep2
    rw [if_pos hc]
    exact ⟨rfl, rfl⟩
  · intro h
    unfold handleGoToStep3
    rw [if_pos h]
    exact ⟨rfl, rfl⟩
  · intro h
    unfold handleGenerate
    rw [if_pos h]
    exact ⟨rfl, rfl⟩

/-- Witness for C6 at the fresh initial state, whose required fields are all
empty: every gated transition is refused without touching the gateway. -/
theorem wizard_gating_witness :
    (handleGoToStep2 "key" (.ok (some "Q")) initialState).state = initialState ∧
    (handleGoToStep3 initialState).requests = [] ∧
    (handleGenerate "key" sampleEnvAllOk initialState).state = initialState := by
  have h := wizard_gating "key" (.ok (some "Q")) sampleEnvAllOk initialState
  exact ⟨(h.1 (Or.inl rfl)).1, (h.2.1 (Or.inl rfl)).2, (h.2.2 (Or.inl rfl)).1⟩

/-- Claim C9 (counterexample): on a state whose required answer field is
empty, `handleGoToStep3` blocks the transition but shows no alert at all —
refuting "every validation error ... surfaces a user-visible prompt" for the
transition out of `DynamicQuestion` (the source is a silent `return`). -/
theorem validation_prompts_cex :
    (handleGoToStep3 silentState).state = silentState ∧
    (handleGoToStep3 silentState).alerts = [] :=
  ⟨rfl, rfl⟩

/-- Claim C9 (amended): every validation error blocks its transition and
issues no gateway request; the refusals out of `DescriptionInput` and
`TechnicalDetails` surface a user-visible alert, while the refusal out of
`DynamicQuestion` blocks silently with no prompt. -/
theorem validation_prompts (apiKey : String) (qo : TextOutcome) (env : GatewayEnv)
    (s : WizardState) :
    (s.data.description = "" ∨ s.data.productImage = none →
      (handleGoToStep2 apiKey qo s).alerts = ["Por favor, adicione uma foto e descrição."] ∧
      (handleGoToStep2 apiKey qo s).requests = []) ∧
    (s.data.dynamicAnswer = "" ∨ s.data.price = "" →
      (handleGoToStep3 s).alerts = [] ∧ (handleGoToStep3 s).requests = []) ∧
    (s.data.contactPhone = "" ∨ s.data.location = "" →
      (handleGenerate apiKey env s).alerts = ["Preencha os dados de contato."] ∧
      (handleGenerate apiKey env s).requests = []) := by
  refine ⟨?_, ?_, ?_⟩
  · intro h
    have hc : s.data.description = "" ∨ s.data.productImage = none ∨
        s.data.productImage = some "" :=
      h.elim Or.inl (fun h2 => Or.inr (Or.inl h2))
    unfold handleGoToStep2
    rw [if_pos hc]
    exact ⟨rfl, rfl⟩
  · intro h
    unfold handleGoToStep3
    rw [if_pos h]
    exact ⟨rfl, rfl⟩
  · intro h
    unfold handleGenerate
    rw [if_pos h]
    exact ⟨rfl, rfl⟩

/-- Witness for the amended C9 at the fresh initial state: the two alerting
refusals show their fixed prompts and the silent one issues no request. -/
theorem validation_prompts_witness :
    (handleGoToStep2 "key" (.err "down") initialState).alerts =
      ["Por favor, adicione uma foto e descrição."] ∧
    (handleGoToStep3 initialState).alerts = [] ∧
    (handleGenerate "key" sampleEnvAllFail initialState).alerts =
      ["Preencha os dados de contato."] := by
  have h := validation_prompts "key" (.err "down") sampleEnvAllFail initialState
  exact ⟨(h.1 (Or.inl rfl)).1, (h.2.1 (Or.inl rfl)).1, (h.2.2 (Or.inl rfl)).1⟩

/-- Claim C7: when the campaign generation rejects, `handleGenerate` leaves
the step untouched (so the wizard remains on `TechnicalDetails`), leaves the
results field and the collected input data unchanged, clears the loading
flag, and surfaces the user-visible error alert. -/
theorem generate_failure_frame (apiKey : String) (env : GatewayEnv)
    (s : WizardState) (img : String)
    (hphone : s.data.contactPhone ≠ "") (hloc : s.data.location ≠ "")
    (himg : s.data.productImage = some img)
    (hfail : okValue (generateCampaign apiKey (toCampaignInput s.data img) env).1 = none) :
    (handleGenerate apiKey env s).state.step = s.step ∧
    (handleGenerate apiKey env s).state.results = s.results ∧
    (handleGenerate apiKey env s).state.data = s.data ∧
    (handleGenerate apiKey env s).state.isLoading = false ∧
    (handleGenerate apiKey env s).alerts =
      ["Ocorreu um erro ao gerar o anúncio. Tente novamente."] := by
  have hcond : ¬(s.data.contactPhone = "" ∨ s.data.location = "") := by
    rintro (h | h)
    · exact hphone h
    · exact hloc h
  have key : handleGenerate apiKey env s = runCampaign apiKey env s img := by
    unfold handleGenerate
    rw [if_neg hcond, himg]
  rw [key]
  unfold runCampaign
  rw [hfail]
  exact ⟨rfl, rfl, rfl, rfl, rfl⟩

/-- Witness for C7: a concrete filled-in state whose campaign run rejects
(every gateway call fails, so the copy rejection propagates); the handler
stays on `TechnicalDetails`, keeps `results = none` and the data, clears
loading, and alerts. -/
theorem generate_failure_frame_witness :
    (handleGenerate "key" sampleEnvAllFail frameState).state.step = frameState.step ∧
    (handleGenerate "key" sampleEnvAllFail frameState).state.results = frameState.results ∧
    (handleGenerate "key" sampleEnvAllFail frameState).state.data = frameState.data ∧
    (handleGenerate "key" sampleEnvAllFail frameState).state.isLoading = false ∧
    (handleGenerate "key" sampleEnvAllFail frameState).alerts =
      ["Ocorreu um erro ao gerar o anúncio. Tente novamente."] :=
  generate_failure_frame "key" sampleEnvAllFail frameState "IMG"
    (by decide) (by decide) rfl rfl

/-- The simulator never decreases the progress value. -/
lemma le_tick (p : ℚ) : p ≤ tick p := by
  unfold tick
  split_ifs <;> linarith

/-- Invariant of the progress simulation: the value is a half-integer and
stays at or below 95. -/
def HalfBounded (p : ℚ) : Prop := (∃ k : ℕ, p = k / 2) ∧ p ≤ 95

/-- One simulator tick preserves the half-integer-below-95 invariant. -/
lemma halfBounded_tick {p : ℚ} (h : HalfBounded p) : HalfBounded (tick p) := by
  obtain ⟨⟨k, hk⟩, hle⟩ := h
  subst hk
  unfold tick
  split_ifs with h95 h40 h70
  · exact ⟨⟨k, rfl⟩, hle⟩
  · exact ⟨⟨k + 4, by push_cast; ring⟩, by linarith⟩
  · exact ⟨⟨k + 2, by push_cast; ring⟩, by linarith⟩
  · have h95' : (k : ℚ) / 2 < 95 := lt_of_not_ge h95
    have hk189 : (k : ℚ) ≤ 189 := by
      have h1 : k < 190 := by
        have h2 : (k : ℚ) < 190 := by linarith
        exact_mod_cast h2
      exact_mod_cast Nat.lt_succ_iff.mp h1
    refine ⟨⟨k + 1, by push_cast; norm_num; ring⟩, by linarith⟩

/-- Every state of a loading cycle satisfies the invariant. -/
lemma halfBounded_progress (n : ℕ) : HalfBounded (progressAfter n) := by
  induction n with
  | zero => exact ⟨⟨10, by norm_num [progressAfter]⟩, by norm_num [progressAfter]⟩
  | succ n ih =>
    have hsucc : progressAfter (n + 1) = tick (progressAfter n) := by
      simp only [progressAfter]
      exact Function.iterate_succ_apply' tick n 5
    rw [hsucc]
    exact halfBounded_tick ih

/-- Claim C8: a loading cycle seeds the progress value to 5, every simulator
tick is non-decreasing — adding 2 below 40, 1 below 70 and 0.5 from 70 up to
the 95 ceiling — and the simulated value never exceeds 95 (the jump to 100
is issued separately by the orchestrator caller on completion). -/
theorem progress_simulation (n : ℕ) (p : ℚ) :
    progressAfter 0 = 5 ∧
    progressAfter n ≤ progressAfter (n + 1) ∧
    progressAfter n ≤ 95 ∧
    (p < 40 → tick p = p + 2) ∧
    (40 ≤ p → p < 70 → tick p = p + 1) ∧
    (70 ≤ p → p < 95 → tick p = p + 0.5) := by
  refine ⟨by simp [progressAfter], ?_, (halfBounded_progress n).2, ?_, ?_, ?_⟩
  · have hsucc : progressAfter (n + 1) = tick (progressAfter n) := by
      simp only [progressAfter]
      exact Function.iterate_succ_apply' tick n 5
    rw [hsucc]
    exact le_tick _
  · intro h40
    unfold tick
    rw [if_neg (not_le.mpr (by linarith)), if_pos h40]
  · intro h40 h70
    unfold tick
    rw [if_neg (not_le.mpr (by linarith)), if_neg (not_lt.mpr h40), if_pos h70]
  · intro h70 h95
    unfold tick
    rw [if_neg (not_le.mpr h95), if_neg (not_lt.mpr (by linarith)),
      if_neg (not_lt.mpr h70)]

/-- Witness for C8: after six ticks the value is still at most 95, and a
tick at 80 adds exactly 0.5. -/
theorem progress_simulation_witness :
    progressAfter 6 ≤ 95 ∧ tick 80 = 80 + 0.5 := by
  have h := progress_simulation 6 80
  exact ⟨h.2.2.1, h.2.2.2.2.2 (by norm_num) (by norm_num)⟩

end LocaViral
